import Mathlib

/-!
Shallow embedding of the QuantFlow signal core (server.ts, src/indicators, src/types):
candle data model, indicator engine (RSI, simplified MACD, SMA, fractal, trend),
the signal analyzer with feedback-driven score adjustment and entry scheduling,
the scanner/selector loop, and the feedback submission endpoint.
Numbers are modelled as rationals; clock times as natural numbers of milliseconds.
-/

namespace QuantFlow

set_option maxRecDepth 4000

/-- A price candle, mirroring the `Candle` interface of the types module. -/
structure Candle where
  time : ℕ
  open_ : ℚ
  high : ℚ
  low : ℚ
  close : ℚ
  volume : ℚ
  deriving DecidableEq, Repr, Inhabited

/-- The `macd` component of `Indicators`: value, signal line and histogram. -/
structure Macd where
  value : Option ℚ
  signal : Option ℚ
  histogram : Option ℚ
  deriving DecidableEq, Repr, Inhabited

/-- Derived indicators, recomputed for every analysis call.
Fractal is one of "top" or "bottom" or absent; trend is "up", "down" or "neutral". -/
structure Indicators where
  rsi : Option ℚ
  macd : Macd
  sma16 : Option ℚ
  fractal : Option String
  trend : String
  deriving DecidableEq, Repr, Inhabited

/-- The context snapshot embedded in signals and feedback records. -/
structure SignalContext where
  rsi : Option ℚ
  macdHist : Option ℚ
  trend : String
  confluences : List String
  deriving DecidableEq, Repr, Inhabited

/-- A directional recommendation, mirroring the `Signal` interface.
The formatted entry-time string of the source is represented by the numeric
`entryTimestamp` it is rendered from. -/
structure Signal where
  timestamp : ℕ
  asset : String
  marketType : String
  direction : String
  confluences : List String
  strength : String
  confidence : String
  winrate : ℚ
  price : ℚ
  entryTimestamp : ℕ
  expiration : String
  context : SignalContext
  deriving DecidableEq, Repr, Inhabited

/-- A stored outcome record, mirroring the `Feedback` interface.  The result
field is a plain string because the endpoint performs no value validation. -/
structure Feedback where
  asset : String
  direction : String
  result : String
  timestamp : ℕ
  context : Option SignalContext
  deriving DecidableEq, Repr, Inhabited

/-- The scanner configuration: timeframe "M1" or "M5"; market type
"REAL", "OTC" or "GERAL". -/
structure ScannerConfig where
  timeframe : String
  marketType : String
  deriving DecidableEq, Repr, Inhabited

/-- One audit-log entry of a scan cycle, mirroring `ScanLog` (the formatted
clock string is represented by the millisecond clock value). -/
structure ScanLog where
  time : ℕ
  asset : String
  status : String
  reason : Option String
  deriving DecidableEq, Repr, Inhabited

/-! ## Indicator engine (src/indicators) -/

/-- `calculateSMA`: mean of the trailing `period` values, absent when there
are fewer than `period` values. -/
def calculateSMA (data : List ℚ) (period : ℕ) : Option ℚ :=
  if data.length < period then none
  else some ((data.drop (data.length - period)).sum / (period : ℚ))

/-- `calculateEMA`: seeded by the SMA of the first `period` values when no
previous EMA is given; otherwise the exponential step. -/
def calculateEMA (data : List ℚ) (period : ℕ) (previousEMA : Option ℚ) : Option ℚ :=
  if data.length < period then none
  else
    match previousEMA with
    | none => calculateSMA (data.take period) period
    | some prev =>
      let k : ℚ := 2 / ((period : ℚ) + 1)
      some (data.getD (data.length - 1) 0 * k + prev * (1 - k))

/-- One Wilder smoothing step of `calculateRSI`: fold the running average
gain and loss over one further price difference. -/
def wilderStep (period : ℕ) (avg : ℚ × ℚ) (diff : ℚ) : ℚ × ℚ :=
  let gain := if 0 ≤ diff then diff else 0
  let loss := if diff < 0 then -diff else 0
  ((avg.1 * ((period : ℚ) - 1) + gain) / (period : ℚ),
   (avg.2 * ((period : ℚ) - 1) + loss) / (period : ℚ))

/-- `calculateRSI`: absent unless strictly more than `period` closes; seeds
average gain and loss from the first `period` differences, then Wilder-smooths
over the rest; returns exactly 100 when the average loss is zero. -/
def calculateRSI (closes : List ℚ) (period : ℕ) : Option ℚ :=
  if closes.length ≤ period then none
  else
    let diffs := List.zipWith (fun a b => a - b) (closes.drop 1) closes
    let seed := diffs.take period
    let gains := (seed.map (fun d => if 0 ≤ d then d else 0)).sum
    let losses := (seed.map (fun d => if d < 0 then -d else 0)).sum
    let final := (diffs.drop period).foldl (wilderStep period)
      (gains / (period : ℚ), losses / (period : ℚ))
    if final.2 = 0 then some 100
    else some (100 - 100 / (1 + final.1 / final.2))

/-- `calculateMACD`: absent below 26 closes; the value is EMA12 minus EMA26
(each seeded, hence an SMA of a prefix); the signal line is approximated as
one fifth of the value; histogram is value minus signal. -/
def calculateMACD (closes : List ℚ) : Macd :=
  if closes.length < 26 then ⟨none, none, none⟩
  else
    match calculateEMA closes 12 none, calculateEMA closes 26 none with
    | some ema12, some ema26 =>
      let macdValue := ema12 - ema26
      let signalLine := macdValue * (1 / 5)
      ⟨some macdValue, some signalLine, some (macdValue - signalLine)⟩
    | _, _ => ⟨none, none, none⟩

/-- `detectTrend`: the source guards with the JavaScript test `!sma16`, which
holds for a missing sma16 and also for the number zero; with fewer than 2
closes the result is likewise "neutral"; otherwise the last close is compared
with sma16. -/
def detectTrend (closes : List ℚ) (sma16 : Option ℚ) : String :=
  if (sma16 = none ∨ sma16 = some 0) ∨ closes.length < 2 then "neutral"
  else
    let lastClose := closes.getD (closes.length - 1) 0
    let s := sma16.getD 0
    if lastClose > s then "up"
    else if lastClose < s then "down"
    else "neutral"

/-- `detectFractal`: with at least 5 candles, classifies the candle three
positions from the end against its two predecessors and two successors;
the top test runs first, then the bottom test. -/
def detectFractal (candles : List Candle) : Option String :=
  if candles.length < 5 then none
  else
    let i := candles.length - 3
    let prev2 := candles.getD (i - 2) default
    let prev1 := candles.getD (i - 1) default
    let curr := candles.getD i default
    let next1 := candles.getD (i + 1) default
    let next2 := candles.getD (i + 2) default
    if curr.high > prev2.high ∧ curr.high > prev1.high ∧
        curr.high > next1.high ∧ curr.high > next2.high then some "top"
    else if curr.low < prev2.low ∧ curr.low < prev1.low ∧
        curr.low < next1.low ∧ curr.low < next2.low then some "bottom"
    else none

/-- `getIndicators` of server.ts: all indicators over one candle window. -/
def getIndicators (candles : List Candle) : Indicators :=
  let closes := candles.map (·.close)
  let sma16 := calculateSMA closes 16
  { rsi := calculateRSI closes 14
    macd := calculateMACD closes
    sma16 := sma16
    fractal := detectFractal candles
    trend := detectTrend closes sma16 }

/-! ## Signal analyzer (analyzeAsset of server.ts) -/

/-- Truth of `x !== null && x > bound` for an optional rational. -/
def optGtVal (x : Option ℚ) (bound : ℚ) : Bool :=
  match x with
  | none => false
  | some v => decide (bound < v)

/-- Truth of `x !== null && x < bound` for an optional rational. -/
def optLtVal (x : Option ℚ) (bound : ℚ) : Bool :=
  match x with
  | none => false
  | some v => decide (v < bound)

/-- The five buy conditions of analyzeAsset, in source order:
bottom fractal, rsi above 50, positive MACD histogram, last close above
sma16, upward trend. -/
def buyFlags (indicators : Indicators) (lastClose : ℚ) : List Bool :=
  [indicators.fractal == some "bottom",
   optGtVal indicators.rsi 50,
   optGtVal indicators.macd.histogram 0,
   optLtVal indicators.sma16 lastClose,
   indicators.trend == "up"]

/-- The five sell conditions of analyzeAsset, in source order:
top fractal, rsi below 50, negative MACD histogram, last close below
sma16, downward trend. -/
def sellFlags (indicators : Indicators) (lastClose : ℚ) : List Bool :=
  [indicators.fractal == some "top",
   optLtVal indicators.rsi 50,
   optLtVal indicators.macd.histogram 0,
   optGtVal indicators.sma16 lastClose,
   indicators.trend == "down"]

/-- The direction and confluence-label logic of analyzeAsset on the ten
condition booleans.  The confluence list is a single mutable array in the
source: labels pushed by the buy block remain in place when the sell block
runs, so the sell-side length test counts leftover buy labels too. -/
def confluenceCore (buyFractal buyRSI buyMACD buySMA buyTrend
    sellFractal sellRSI sellMACD sellSMA sellTrend : Bool) :
    Option (String × List String) :=
  let buyConf :=
    (if buyFractal then ["Fractal Fundo"] else []) ++
    (if buyRSI then ["RSI > 50"] else []) ++
    (if buyMACD then ["MACD Positivo"] else []) ++
    (if buySMA then ["Preço > SMA16"] else []) ++
    (if buyTrend then ["Tendência Alta"] else [])
  if 2 ≤ buyConf.length then some ("CALL", buyConf)
  else
    let confluences := buyConf ++
      (if sellFractal then ["Fractal Topo"] else []) ++
      (if sellRSI then ["RSI < 50"] else []) ++
      (if sellMACD then ["MACD Negativo"] else []) ++
      (if sellSMA then ["Preço < SMA16"] else []) ++
      (if sellTrend then ["Tendência Baixa"] else [])
    if (sellFractal || sellRSI || sellMACD || sellSMA || sellTrend) ∧
        2 ≤ confluences.length then some ("PUT", confluences)
    else none

/-- The direction decision of analyzeAsset: buy rules first, then, if the
direction is still neutral, the sell rules; absent when neither applies. -/
def computeConfluences (indicators : Indicators) (lastClose : ℚ) :
    Option (String × List String) :=
  confluenceCore
    (indicators.fractal == some "bottom")
    (optGtVal indicators.rsi 50)
    (optGtVal indicators.macd.histogram 0)
    (optLtVal indicators.sma16 lastClose)
    (indicators.trend == "up")
    (indicators.fractal == some "top")
    (optLtVal indicators.rsi 50)
    (optLtVal indicators.macd.histogram 0)
    (optGtVal indicators.sma16 lastClose)
    (indicators.trend == "down")

/-- The similar-loss lookup of analyzeAsset: prior records for the same asset
and direction, with result loss and a context whose confluence overlap,
measured as intersection size over the larger list length, is at least 0.7. -/
def similarLosses (feedbackHistory : List Feedback) (assetName direction : String)
    (confluences : List String) : List Feedback :=
  feedbackHistory.filter (fun f =>
    f.asset == assetName && f.result == "loss" && f.direction == direction &&
    (match f.context with
     | none => false
     | some ctx =>
       decide ((((ctx.confluences.filter (fun c => confluences.contains c)).length : ℚ) /
         (max ctx.confluences.length confluences.length : ℕ)) ≥ 7 / 10)))

/-- The loss penalty of analyzeAsset: minus five per matching prior loss. -/
def lossPenalty (feedbackHistory : List Feedback) (assetName direction : String)
    (confluences : List String) : ℚ :=
  let n := (similarLosses feedbackHistory assetName direction confluences).length
  if 0 < n then -((n : ℚ)) * 5 else 0

/-- The most recent 20 feedback records for one asset (any direction). -/
def recentFeedback (feedbackHistory : List Feedback) (assetName : String) :
    List Feedback :=
  let l := feedbackHistory.filter (fun f => f.asset == assetName)
  l.drop (l.length - 20)

/-- The general feedback adjustment of analyzeAsset over the recent records:
minus two per excess loss, plus one per excess win. -/
def winrateAdjustment (feedbackHistory : List Feedback) (assetName : String) : ℚ :=
  let recent := recentFeedback feedbackHistory assetName
  let losses := (recent.filter (fun f => f.result == "loss")).length
  let wins := (recent.filter (fun f => f.result == "win")).length
  if wins < losses then -(((losses - wins : ℕ) : ℚ)) * 2
  else if losses < wins then ((wins - losses : ℕ) : ℚ) * 1
  else 0

/-! ## Entry-time scheduling (date arithmetic on milliseconds) -/

/-- date-fns `startOfMinute` on a millisecond clock value. -/
def startOfMinute (t : ℕ) : ℕ := (t / 60000) * 60000

/-- date-fns `addMinutes` on a millisecond clock value. -/
def addMinutes (t : ℕ) (n : ℕ) : ℕ := t + n * 60000

/-- JavaScript `getMinutes` on a millisecond clock value. -/
def getMinutes (t : ℕ) : ℕ := (t / 60000) % 60

/-- The M1 entry time of analyzeAsset: minute floor plus two minutes. -/
def entryTimeM1 (now : ℕ) : ℕ := addMinutes (startOfMinute now) 2

/-- The M5 entry time of analyzeAsset: `Math.ceil((mins + 1) / 5) * 5`
minutes, seconds zeroed (the final `setSeconds 0` of the source is a no-op
after `startOfMinute`). -/
def entryTimeM5 (now : ℕ) : ℕ :=
  let mins := getMinutes now
  let nextRound := ((mins + 1 + 4) / 5) * 5
  startOfMinute (addMinutes now (nextRound - mins))

/-- Assembly of the returned `Signal` once a direction is decided, covering
the penalty, adjustment, entry-time, winrate-clamp, confidence and strength
computations of analyzeAsset.  `rand` models the `Math.random()` draw. -/
def buildSignal (assetName marketType : String) (config : ScannerConfig)
    (feedbackHistory : List Feedback) (now : ℕ) (rand : ℚ)
    (indicators : Indicators) (lastClose : ℚ)
    (direction : String) (confluences : List String) : Signal :=
  let penalty := lossPenalty feedbackHistory assetName direction confluences
  let adjustment := winrateAdjustment feedbackHistory assetName
  let winrate := 75 + (confluences.length : ℚ) * 5 + rand * 5 + adjustment + penalty
  { timestamp := now
    asset := assetName
    marketType := marketType
    direction := direction
    confluences := confluences
    strength :=
      if 4 ≤ confluences.length then "Strong"
      else if 3 ≤ confluences.length then "Medium"
      else "Weak"
    confidence :=
      if 5 ≤ confluences.length then "Muito Alta"
      else if confluences.length = 4 then "Alta"
      else if confluences.length = 3 then "Média"
      else "Baixa"
    winrate := max 0 (min winrate 100)
    price := lastClose
    entryTimestamp := if config.timeframe == "M1" then entryTimeM1 now else entryTimeM5 now
    expiration := if config.timeframe == "M1" then "1 min" else "5 min"
    context :=
      { rsi := indicators.rsi
        macdHist := indicators.macd.histogram
        trend := indicators.trend
        confluences := confluences } }

/-- `analyzeAsset` of server.ts.  The global `marketData` record, the feedback
history, the wall clock and the random draw are passed as explicit inputs;
an unknown asset yields no signal, an undecided direction yields no signal,
and otherwise the signal is assembled by buildSignal. -/
def analyzeAsset (marketData : String → Option (List Candle × String))
    (feedbackHistory : List Feedback) (config : ScannerConfig)
    (now : ℕ) (rand : ℚ) (assetName : String) : Option Signal :=
  match marketData assetName with
  | none => none
  | some (candles, marketType) =>
    (computeConfluences (getIndicators candles)
      ((candles.getD (candles.length - 1) default).close)).map
      (fun p => buildSignal assetName marketType config feedbackHistory now rand
        (getIndicators candles) ((candles.getD (candles.length - 1) default).close)
        p.1 p.2)

/-! ## Scanner/selector (the SCAN_MARKET handler of startServer) -/

/-- The best-candidate update of the scan loop: a new signal replaces the
current best only when its winrate is strictly greater. -/
def chooseBest (bestSignal : Option Signal) (signal : Signal) : Option Signal :=
  match bestSignal with
  | none => some signal
  | some b => if b.winrate < signal.winrate then some signal else some b

/-- The running state of one scan cycle: the audit log so far and the best
candidate so far. -/
structure ScanState where
  logs : List ScanLog
  bestSignal : Option Signal
  deriving DecidableEq, Repr, Inhabited

/-- One iteration of the scan loop for a single `(name, type)` instrument:
mute filter, market-type filter, analysis, winrate filter, repeat-suppression
against the last selected asset and entry-timestamp pair, then the
best-candidate comparison.  The winrate-discard reason of the source
interpolates the computed percentage into the string; the interpolated digits
are dropped here and only the fixed prefix is kept. -/
def scanAssetStep (marketData : String → Option (List Candle × String))
    (feedbackHistory : List Feedback) (scannerConfig : ScannerConfig)
    (now : ℕ) (rand : String → ℚ) (mutedList : List String)
    (lastSignalInfo : Option (String × ℕ))
    (st : ScanState) (asset : String × String) : ScanState :=
  if mutedList.contains asset.1 then
    { st with logs := st.logs ++
        [⟨now, asset.1, "discarded", some "Ativo silenciado pelo usuário"⟩] }
  else if scannerConfig.marketType ≠ "GERAL" ∧ asset.2 ≠ scannerConfig.marketType then
    { st with logs := st.logs ++
        [⟨now, asset.1, "discarded", some "Tipo de mercado filtrado"⟩] }
  else
    match analyzeAsset marketData feedbackHistory scannerConfig now (rand asset.1) asset.1 with
    | none =>
      { st with logs := st.logs ++
          [⟨now, asset.1, "discarded", some "Sem confluência mínima"⟩] }
    | some signal =>
      if signal.winrate < 90 then
        { st with logs := st.logs ++
            [⟨now, asset.1, "discarded", some "Winrate insuficiente"⟩] }
      else if (match lastSignalInfo with
               | some info => signal.asset == info.1 && signal.entryTimestamp == info.2
               | none => false) then
        { st with logs := st.logs ++
            [⟨now, asset.1, "discarded", some "Sinal já enviado para este horário"⟩] }
      else
        { logs := st.logs ++ [⟨now, asset.1, "analyzed", none⟩]
          bestSignal := chooseBest st.bestSignal signal }

/-- The post-loop block of the scan handler: when a best candidate exists,
append its "selected" log entry and update the cross-cycle last-selected
memory; otherwise the memory is kept unchanged. -/
def runScanFinish (now : ℕ) (lastSignalInfo : Option (String × ℕ)) (st : ScanState) :
    Option Signal × List ScanLog × Option (String × ℕ) :=
  match st.bestSignal with
  | some b => (some b, st.logs ++ [⟨now, b.asset, "selected", none⟩], some (b.asset, b.entryTimestamp))
  | none => (none, st.logs, lastSignalInfo)

/-- One full scan cycle over an instrument list: fold the per-asset step over
the instruments in enumeration order, then finish.  Returns the best signal,
the log in evaluation order, and the new last-selected memory. -/
def runScan (marketData : String → Option (List Candle × String))
    (feedbackHistory : List Feedback) (scannerConfig : ScannerConfig)
    (now : ℕ) (rand : String → ℚ) (assets : List (String × String))
    (mutedList : List String) (lastSignalInfo : Option (String × ℕ)) :
    Option Signal × List ScanLog × Option (String × ℕ) :=
  runScanFinish now lastSignalInfo
    (assets.foldl
      (scanAssetStep marketData feedbackHistory scannerConfig now rand mutedList lastSignalInfo)
      ⟨[], none⟩)

/-- The fixed instrument enumeration of server.ts. -/
def ASSETS : List (String × String) :=
  [("EURUSD", "REAL"), ("GBPUSD", "REAL"), ("USDJPY", "REAL"), ("AUDUSD", "REAL"),
   ("USDCAD", "REAL"), ("EURJPY", "REAL"), ("EURGBP", "REAL"), ("GBPJPY", "REAL"),
   ("AUDJPY", "REAL"), ("NZDUSD", "REAL"),
   ("EURUSD-OTC", "OTC"), ("GBPUSD-OTC", "OTC"), ("USDJPY-OTC", "OTC"),
   ("AUDCAD-OTC", "OTC"), ("EURGBP-OTC", "OTC"), ("USDCHF-OTC", "OTC"),
   ("NZDUSD-OTC", "OTC"), ("AUDUSD-OTC", "OTC"), ("GBPJPY-OTC", "OTC"),
   ("EURJPY-OTC", "OTC"), ("CADJPY-OTC", "OTC"), ("CHFJPY-OTC", "OTC"),
   ("AUDNZD-OTC", "OTC"), ("EURCAD-OTC", "OTC"), ("GBPCAD-OTC", "OTC"),
   ("BTCUSD", "REAL"), ("ETHUSD", "REAL"), ("SOLUSD", "REAL"), ("XRPUSD", "REAL"),
   ("ADAUSD", "REAL"), ("DOGEUSD", "REAL"), ("DOTUSD", "REAL"),
   ("BTCUSD-OTC", "OTC"), ("ETHUSD-OTC", "OTC"), ("LTCUSD-OTC", "OTC")]

/-! ## Feedback submission endpoint (POST /api/feedback) -/

/-- An incoming feedback request body; fields may be missing. -/
structure FeedbackReq where
  asset : Option String
  direction : String
  result : Option String
  context : Option SignalContext
  deriving DecidableEq, Repr, Inhabited

/-- JavaScript falsiness of an optional string: missing or empty. -/
def isFalsy (s : Option String) : Bool :=
  match s with
  | none => true
  | some v => v == ""

/-- The outcome of a feedback submission: the 400 rejection, or the 200
response carrying the updated in-memory history and the reported size. -/
inductive FeedbackResult where
  | error (msg : String)
  | ok (history : List Feedback) (historySize : ℕ)
  deriving DecidableEq, Repr, Inhabited

/-- The feedback endpoint: rejects when `!feedback.asset || !feedback.result`
holds (no check of the result value beyond truthiness), otherwise stamps the
timestamp, appends exactly one record and reports the new history size. -/
def handleFeedback (feedbackHistory : List Feedback) (req : FeedbackReq)
    (now : ℕ) : FeedbackResult :=
  if isFalsy req.asset || isFalsy req.result then .error "Invalid feedback"
  else
    let record : Feedback :=
      { asset := req.asset.getD "", direction := req.direction,
        result := req.result.getD "", timestamp := now, context := req.context }
    .ok (feedbackHistory ++ [record]) (feedbackHistory.length + 1)

/-! ## Concrete fixtures used by counterexamples and witnesses -/

/-- A candle with the given high, low and close; open equals close. -/
def mkCandle (h l c : ℚ) : Candle := ⟨0, c, h, l, c, 0⟩

/-- Sixteen candles whose closes alternate 11 and 10 and end 11, 11: RSI is
exactly 50, sma16 is 169/16, the candle three from the end is a bottom
fractal, so exactly the three buy conditions fractal, price above SMA and
upward trend hold. -/
def candlesA : List Candle :=
  [mkCandle 50 1 11, mkCandle 50 1 10, mkCandle 50 1 11, mkCandle 50 1 10,
   mkCandle 50 1 11, mkCandle 50 1 10, mkCandle 50 1 11, mkCandle 50 1 10,
   mkCandle 50 1 11, mkCandle 50 1 10, mkCandle 50 1 11, mkCandle 50 1 10,
   mkCandle 50 1 11, mkCandle 50 0 10, mkCandle 50 1 11, mkCandle 50 1 11]

/-- Sixteen candles with strictly increasing closes 1..16 and a bottom
fractal three from the end: the four buy conditions fractal, RSI above 50,
price above SMA and upward trend hold. -/
def candlesB : List Candle :=
  [mkCandle 50 1 1, mkCandle 50 1 2, mkCandle 50 1 3, mkCandle 50 1 4,
   mkCandle 50 1 5, mkCandle 50 1 6, mkCandle 50 1 7, mkCandle 50 1 8,
   mkCandle 50 1 9, mkCandle 50 1 10, mkCandle 50 1 11, mkCandle 50 1 12,
   mkCandle 50 1 13, mkCandle 50 0 14, mkCandle 50 1 15, mkCandle 50 1 16]

/-- Fifteen candles with strictly decreasing closes: RSI is 0, sma16 and MACD
are absent, and the candle three from the end is a bottom fractal, so exactly
one buy condition (bottom fractal) and one sell condition (RSI below 50)
hold. -/
def candlesLeak : List Candle :=
  [mkCandle 50 1 30, mkCandle 50 1 29, mkCandle 50 1 28, mkCandle 50 1 27,
   mkCandle 50 1 26, mkCandle 50 1 25, mkCandle 50 1 24, mkCandle 50 1 23,
   mkCandle 50 1 22, mkCandle 50 1 21, mkCandle 50 1 20, mkCandle 50 1 19,
   mkCandle 50 0 18, mkCandle 50 1 17, mkCandle 50 1 16]

/-- Twenty-six candles: twelve closes at 0, then thirteen at 30, then one at
10, with a top fractal three from the end; all five sell conditions hold. -/
def candles6 : List Candle :=
  List.replicate 12 (mkCandle 50 5 0) ++ List.replicate 11 (mkCandle 50 5 30) ++
  [mkCandle 100 5 30, mkCandle 50 5 30, mkCandle 50 5 10]

/-- Market data exposing candlesA as EURUSD and candlesB as GBPUSD. -/
def mdAB : String → Option (List Candle × String) := fun name =>
  if name = "EURUSD" then some (candlesA, "REAL")
  else if name = "GBPUSD" then some (candlesB, "REAL")
  else none

/-- Market data exposing only candlesB as GBPUSD. -/
def mdB : String → Option (List Candle × String) := fun name =>
  if name = "GBPUSD" then some (candlesB, "REAL") else none

/-- Market data exposing only candlesLeak as EURUSD. -/
def mdLeak : String → Option (List Candle × String) := fun name =>
  if name = "EURUSD" then some (candlesLeak, "REAL") else none

/-- Market data exposing only candles6 as EURUSD. -/
def md6 : String → Option (List Candle × String) := fun name =>
  if name = "EURUSD" then some (candles6, "REAL") else none

/-- Timeframe M1, market mode GERAL. -/
def cfgM1 : ScannerConfig := ⟨"M1", "GERAL"⟩

/-- Timeframe M5, market mode GERAL. -/
def cfgM5 : ScannerConfig := ⟨"M5", "GERAL"⟩

/-- The clock value 10:07:30 after midnight, in milliseconds. -/
def now1073 : ℕ := 36450000

/-- Random draws: one fifth for EURUSD (jitter 1), zero elsewhere. -/
def randAB : String → ℚ := fun name => if name = "EURUSD" then 1 / 5 else 0

/-- The zero random draw. -/
def rand0 : String → ℚ := fun _ => 0

/-- The five sell confluence labels, as produced for candles6. -/
def conf5 : List String :=
  ["Fractal Topo", "RSI < 50", "MACD Negativo", "Preço < SMA16", "Tendência Baixa"]

/-- A prior loss on EURUSD PUT whose recorded confluences equal conf5. -/
def lossRec : Feedback :=
  { asset := "EURUSD", direction := "PUT", result := "loss", timestamp := 0,
    context := some { rsi := none, macdHist := none, trend := "down", confluences := conf5 } }

/-- A prior win on EURUSD. -/
def winRec : Feedback :=
  { asset := "EURUSD", direction := "PUT", result := "win", timestamp := 0, context := none }

/-- One matching old loss followed by twenty wins. -/
def histOneLoss : List Feedback := lossRec :: List.replicate 20 winRec

/-- Two matching old losses followed by twenty wins. -/
def histTwoLoss : List Feedback := lossRec :: lossRec :: List.replicate 20 winRec

/-- The top-fractal inequality of detectFractal: the high of the candle three
from the end strictly exceeds the highs of its two predecessors and two
successors. -/
abbrev topCond (candles : List Candle) : Prop :=
  (candles.getD (candles.length - 3) default).high >
    (candles.getD (candles.length - 3 - 2) default).high ∧
  (candles.getD (candles.length - 3) default).high >
    (candles.getD (candles.length - 3 - 1) default).high ∧
  (candles.getD (candles.length - 3) default).high >
    (candles.getD (candles.length - 3 + 1) default).high ∧
  (candles.getD (candles.length - 3) default).high >
    (candles.getD (candles.length - 3 + 2) default).high

/-- The bottom-fractal inequality of detectFractal: the low of the candle
three from the end is strictly below the lows of its two predecessors and two
successors. -/
abbrev botCond (candles : List Candle) : Prop :=
  (candles.getD (candles.length - 3) default).low <
    (candles.getD (candles.length - 3 - 2) default).low ∧
  (candles.getD (candles.length - 3) default).low <
    (candles.getD (candles.length - 3 - 1) default).low ∧
  (candles.getD (candles.length - 3) default).low <
    (candles.getD (candles.length - 3 + 1) default).low ∧
  (candles.getD (candles.length - 3) default).low <
    (candles.getD (candles.length - 3 + 2) default).low

/-- Five candles whose highs are 1, 2, 5, 2, 1 and whose lows are all 0. -/
def candlesTop : List Candle :=
  [mkCandle 1 0 0, mkCandle 2 0 0, mkCandle 5 0 0, mkCandle 2 0 0, mkCandle 1 0 0]

/-- Five candles whose lows are 5, 4, 1, 4, 5 and whose highs are all 10. -/
def candlesBot : List Candle :=
  [mkCandle 10 5 0, mkCandle 10 4 0, mkCandle 10 1 0, mkCandle 10 4 0, mkCandle 10 5 0]

/-- Five candles with monotonically increasing highs and lows. -/
def candlesMono : List Candle :=
  [mkCandle 1 1 0, mkCandle 2 2 0, mkCandle 3 3 0, mkCandle 4 4 0, mkCandle 5 5 0]

/-- Five candles whose middle candle engulfs its neighbours: its high exceeds
all four neighbouring highs and its low is below all four neighbouring lows. -/
def candlesWide : List Candle :=
  [mkCandle 5 1 3, mkCandle 5 1 3, mkCandle 10 0 5, mkCandle 5 1 3, mkCandle 5 1 3]

/-- The signal analyzeAsset produces for EURUSD over candlesA with empty
feedback, timeframe M1 at 10:07:30 and random draw one fifth. -/
def sigA : Signal :=
  buildSignal "EURUSD" "REAL" cfgM1 [] now1073 (1 / 5) (getIndicators candlesA) 11
    "CALL" ["Fractal Fundo", "Preço > SMA16", "Tendência Alta"]

/-- The signal analyzeAsset produces for GBPUSD over candlesB with empty
feedback, timeframe M1 at 10:07:30 and zero random draw. -/
def sigB : Signal :=
  buildSignal "GBPUSD" "REAL" cfgM1 [] now1073 0 (getIndicators candlesB) 16
    "CALL" ["Fractal Fundo", "RSI > 50", "Preço > SMA16", "Tendência Alta"]

/-- The signal analyzeAsset produces for GBPUSD over candlesB with empty
feedback, timeframe M5 at 10:07:30 and zero random draw. -/
def sigB5 : Signal :=
  buildSignal "GBPUSD" "REAL" cfgM5 [] now1073 0 (getIndicators candlesB) 16
    "CALL" ["Fractal Fundo", "RSI > 50", "Preço > SMA16", "Tendência Alta"]

/-- The signal analyzeAsset produces for EURUSD over candles6 against the
one-matching-loss history. -/
def sig61 : Signal :=
  buildSignal "EURUSD" "REAL" cfgM1 histOneLoss now1073 0 (getIndicators candles6) 10
    "PUT" conf5

/-- The signal analyzeAsset produces for EURUSD over candles6 against the
two-matching-loss history. -/
def sig62 : Signal :=
  buildSignal "EURUSD" "REAL" cfgM1 histTwoLoss now1073 0 (getIndicators candles6) 10
    "PUT" conf5

/-- A two-instrument enumeration: A is EURUSD, B is GBPUSD, in this order. -/
def assetsAB : List (String × String) := [("EURUSD", "REAL"), ("GBPUSD", "REAL")]

/-- A one-instrument enumeration holding only GBPUSD. -/
def assetsB : List (String × String) := [("GBPUSD", "REAL")]

/-! ## Helper lemmas -/

/-- The winrate clamp is never below zero. -/
lemma clamp_nonneg (x : ℚ) : 0 ≤ max 0 (min x 100) := le_max_left _ _

/-- The winrate clamp is never above one hundred. -/
lemma clamp_le_100 (x : ℚ) : max 0 (min x 100) ≤ 100 :=
  max_le (by norm_num) (min_le_right _ _)

/-- The winrate clamp is monotone. -/
lemma clamp_mono {a b : ℚ} (h : a ≤ b) :
    max 0 (min a 100) ≤ max 0 (min b 100) :=
  max_le_max le_rfl (min_le_min h le_rfl)

/-- Case analysis of the direction logic over the ten condition booleans:
at least two buy conditions give CALL with one label per buy condition;
below two buy conditions, PUT requires at least one sell condition and a
total of at least two labels, buy leftovers included; otherwise no signal. -/
lemma confluenceCore_cases (bF bR bM bS bT sF sR sM sS sT : Bool) :
    (2 ≤ ([bF, bR, bM, bS, bT].count true) →
      (confluenceCore bF bR bM bS bT sF sR sM sS sT).map (fun p => p.1) = some "CALL" ∧
      (confluenceCore bF bR bM bS bT sF sR sM sS sT).map (fun p => p.2.length) =
        some ([bF, bR, bM, bS, bT].count true)) ∧
    (([bF, bR, bM, bS, bT].count true) < 2 → 1 ≤ ([sF, sR, sM, sS, sT].count true) →
      2 ≤ ([bF, bR, bM, bS, bT].count true) + ([sF, sR, sM, sS, sT].count true) →
      (confluenceCore bF bR bM bS bT sF sR sM sS sT).map (fun p => p.1) = some "PUT") ∧
    (([bF, bR, bM, bS, bT].count true) < 2 →
      (([sF, sR, sM, sS, sT].count true) = 0 ∨
        ([bF, bR, bM, bS, bT].count true) + ([sF, sR, sM, sS, sT].count true) < 2) →
      confluenceCore bF bR bM bS bT sF sR sM sS sT = none) := by
  revert bF bR bM bS bT sF sR sM sS sT
  decide

/-- Every decided direction carries at least two confluence labels. -/
lemma confluenceCore_min_two (bF bR bM bS bT sF sR sM sS sT : Bool) :
    (match confluenceCore bF bR bM bS bT sF sR sM sS sT with
     | none => true
     | some p => decide (2 ≤ p.2.length)) = true := by
  revert bF bR bM bS bT sF sR sM sS sT
  decide

/-- The direction logic of analyzeAsset stated through the buy and sell flag
lists (the flag lists and the arguments of computeConfluences are the same
expressions by definition). -/
lemma computeConfluences_cases (ind : Indicators) (lc : ℚ) :
    (2 ≤ (buyFlags ind lc).count true →
      (computeConfluences ind lc).map (fun p => p.1) = some "CALL" ∧
      (computeConfluences ind lc).map (fun p => p.2.length) =
        some ((buyFlags ind lc).count true)) ∧
    ((buyFlags ind lc).count true < 2 → 1 ≤ (sellFlags ind lc).count true →
      2 ≤ (buyFlags ind lc).count true + (sellFlags ind lc).count true →
      (computeConfluences ind lc).map (fun p => p.1) = some "PUT") ∧
    ((buyFlags ind lc).count true < 2 →
      ((sellFlags ind lc).count true = 0 ∨
        (buyFlags ind lc).count true + (sellFlags ind lc).count true < 2) →
      computeConfluences ind lc = none) :=
  confluenceCore_cases (ind.fractal == some "bottom") (optGtVal ind.rsi 50)
    (optGtVal ind.macd.histogram 0) (optLtVal ind.sma16 lc) (ind.trend == "up")
    (ind.fractal == some "top") (optLtVal ind.rsi 50) (optLtVal ind.macd.histogram 0)
    (optGtVal ind.sma16 lc) (ind.trend == "down")

/-- Unfolding of analyzeAsset on a known market-data entry. -/
lemma analyzeAsset_eq (md : String → Option (List Candle × String))
    (h : List Feedback) (cfg : ScannerConfig) (now : ℕ) (rand : ℚ)
    (name : String) (candles : List Candle) (ty : String)
    (hmd : md name = some (candles, ty)) :
    analyzeAsset md h cfg now rand name =
      (computeConfluences (getIndicators candles)
        ((candles.getD (candles.length - 1) default).close)).map
        (fun p => buildSignal name ty cfg h now rand (getIndicators candles)
          ((candles.getD (candles.length - 1) default).close) p.1 p.2) := by
  unfold analyzeAsset
  rw [hmd]

/-- Projecting the direction out of a mapped buildSignal. -/
lemma map_buildSignal_direction (cc : Option (String × List String))
    (name ty : String) (cfg : ScannerConfig) (h : List Feedback) (now : ℕ)
    (rand : ℚ) (ind : Indicators) (lc : ℚ) :
    ((cc.map (fun p => buildSignal name ty cfg h now rand ind lc p.1 p.2)).map
      Signal.direction) = cc.map (fun p => p.1) := by
  cases cc with
  | none => rfl
  | some p => rfl

/-! ## Claim C1: the confluence gate -/

/-- Claim C1 counterexample: on a window where exactly one buy condition
(bottom fractal) and exactly one sell condition (RSI below 50) hold, analyze
does not return absent: the buy label left in the shared confluence array
carries over to the sell count, producing a PUT signal from one sell
condition. -/
theorem C1_counterexample :
    (buyFlags (getIndicators candlesLeak) 16).count true = 1 ∧
    (sellFlags (getIndicators candlesLeak) 16).count true = 1 ∧
    (analyzeAsset mdLeak [] cfgM1 now1073 0 "EURUSD").map Signal.direction = some "PUT" := by
  with_unfolding_all decide

/-- Claim C1 (amended): with at least two buy conditions the returned signal
is a CALL (and its label count equals the buy count); with fewer than two buy
conditions, a PUT is returned exactly when at least one sell condition holds
and buy plus sell conditions total at least two — leftover buy labels count
toward the PUT threshold; analyze returns absent exactly in the remaining
cases. -/
theorem C1_amended (md : String → Option (List Candle × String))
    (fb : List Feedback) (cfg : ScannerConfig) (now : ℕ) (rand : ℚ)
    (name : String) (candles : List Candle) (ty : String)
    (hmd : md name = some (candles, ty)) :
    (2 ≤ (buyFlags (getIndicators candles)
        ((candles.getD (candles.length - 1) default).close)).count true →
      (analyzeAsset md fb cfg now rand name).map Signal.direction = some "CALL") ∧
    ((buyFlags (getIndicators candles)
        ((candles.getD (candles.length - 1) default).close)).count true < 2 →
      1 ≤ (sellFlags (getIndicators candles)
        ((candles.getD (candles.length - 1) default).close)).count true →
      2 ≤ (buyFlags (getIndicators candles)
          ((candles.getD (candles.length - 1) default).close)).count true +
        (sellFlags (getIndicators candles)
          ((candles.getD (candles.length - 1) default).close)).count true →
      (analyzeAsset md fb cfg now rand name).map Signal.direction = some "PUT") ∧
    ((buyFlags (getIndicators candles)
        ((candles.getD (candles.length - 1) default).close)).count true < 2 →
      ((sellFlags (getIndicators candles)
          ((candles.getD (candles.length - 1) default).close)).count true = 0 ∨
        (buyFlags (getIndicators candles)
            ((candles.getD (candles.length - 1) default).close)).count true +
          (sellFlags (getIndicators candles)
            ((candles.getD (candles.length - 1) default).close)).count true < 2) →
      analyzeAsset md fb cfg now rand name = none) := by
  have hc := computeConfluences_cases (getIndicators candles)
    ((candles.getD (candles.length - 1) default).close)
  rw [analyzeAsset_eq md fb cfg now rand name candles ty hmd]
  rw [map_buildSignal_direction]
  refine ⟨fun h2 => (hc.1 h2).1, fun hlt hs ht => hc.2.1 hlt hs ht, fun hlt hd => ?_⟩
  rw [hc.2.2 hlt hd, Option.map_none']

/-- Claim C1 witness: the amended theorem applied to the four-buy-condition
window (a CALL) and to the leak window (a PUT from one buy plus one sell
condition). -/
theorem C1_witness :
    (analyzeAsset mdB [] cfgM1 now1073 0 "GBPUSD").map Signal.direction = some "CALL" ∧
    (analyzeAsset mdLeak [] cfgM1 now1073 0 "EURUSD").map Signal.direction ≠ none := by
  constructor
  · exact (C1_amended mdB [] cfgM1 now1073 0 "GBPUSD" candlesB "REAL" (by decide)).1
      (by with_unfolding_all decide)
  · rw [(C1_amended mdLeak [] cfgM1 now1073 0 "EURUSD" candlesLeak "REAL" (by decide)).2.1
      (by with_unfolding_all decide) (by with_unfolding_all decide)
      (by with_unfolding_all decide)]
    exact Option.some_ne_none _

/-- Evaluation form of analyzeAsset: a known market-data entry and an
evaluated direction decision determine the returned signal. -/
lemma analyzeAsset_eval (md : String → Option (List Candle × String))
    (fb : List Feedback) (cfg : ScannerConfig) (now : ℕ) (rand : ℚ)
    (name : String) (candles : List Candle) (ty d : String) (conf : List String)
    (hmd : md name = some (candles, ty))
    (hcc : computeConfluences (getIndicators candles)
      ((candles.getD (candles.length - 1) default).close) = some (d, conf)) :
    analyzeAsset md fb cfg now rand name =
      some (buildSignal name ty cfg fb now rand (getIndicators candles)
        ((candles.getD (candles.length - 1) default).close) d conf) := by
  rw [analyzeAsset_eq md fb cfg now rand name candles ty hmd, hcc]
  rfl

/-- Evaluation of analyzeAsset on the GBPUSD fixture, timeframe M1. -/
lemma analyzeAsset_sigB : analyzeAsset mdB [] cfgM1 now1073 0 "GBPUSD" = some sigB :=
  analyzeAsset_eval mdB [] cfgM1 now1073 0 "GBPUSD" candlesB "REAL" "CALL"
    ["Fractal Fundo", "RSI > 50", "Preço > SMA16", "Tendência Alta"] (by decide)
    (by with_unfolding_all decide)

/-- Evaluation of analyzeAsset on the GBPUSD fixture, timeframe M5. -/
lemma analyzeAsset_sigB5 : analyzeAsset mdB [] cfgM5 now1073 0 "GBPUSD" = some sigB5 :=
  analyzeAsset_eval mdB [] cfgM5 now1073 0 "GBPUSD" candlesB "REAL" "CALL"
    ["Fractal Fundo", "RSI > 50", "Preço > SMA16", "Tendência Alta"] (by decide)
    (by with_unfolding_all decide)

/-- Evaluation of analyzeAsset on the five-confluence fixture against the
one-loss history. -/
lemma analyzeAsset_sig61 :
    analyzeAsset md6 histOneLoss cfgM1 now1073 0 "EURUSD" = some sig61 :=
  analyzeAsset_eval md6 histOneLoss cfgM1 now1073 0 "EURUSD" candles6 "REAL" "PUT"
    conf5 (by decide) (by with_unfolding_all decide)

/-- Evaluation of analyzeAsset on the five-confluence fixture against the
two-loss history. -/
lemma analyzeAsset_sig62 :
    analyzeAsset md6 histTwoLoss cfgM1 now1073 0 "EURUSD" = some sig62 :=
  analyzeAsset_eval md6 histTwoLoss cfgM1 now1073 0 "EURUSD" candles6 "REAL" "PUT"
    conf5 (by decide) (by with_unfolding_all decide)

/-- Any signal returned by analyzeAsset arises from a known market-data entry
and a decided direction, assembled by buildSignal. -/
lemma analyzeAsset_some_ex (md : String → Option (List Candle × String))
    (fb : List Feedback) (cfg : ScannerConfig) (now : ℕ) (rand : ℚ)
    (name : String) (s : Signal)
    (ha : analyzeAsset md fb cfg now rand name = some s) :
    ∃ candles ty p,
      md name = some (candles, ty) ∧
      computeConfluences (getIndicators candles)
        ((candles.getD (candles.length - 1) default).close) = some p ∧
      s = buildSignal name ty cfg fb now rand (getIndicators candles)
        ((candles.getD (candles.length - 1) default).close) p.1 p.2 := by
  cases hmd : md name with
  | none =>
    unfold analyzeAsset at ha
    rw [hmd] at ha
    exact Option.noConfusion ha
  | some ct =>
    obtain ⟨candles, ty⟩ := ct
    rw [analyzeAsset_eq md fb cfg now rand name candles ty hmd] at ha
    obtain ⟨p, hcc, hs⟩ := Option.map_eq_some'.mp ha
    exact ⟨candles, ty, p, rfl, hcc, hs.symm⟩

/-- Every decided direction of computeConfluences carries at least two
labels. -/
lemma computeConfluences_min_two (ind : Indicators) (lc : ℚ) :
    (match computeConfluences ind lc with
     | none => true
     | some p => decide (2 ≤ p.2.length)) = true :=
  confluenceCore_min_two _ _ _ _ _ _ _ _ _ _

/-- The loss penalty always equals minus five times the matching count. -/
lemma lossPenalty_eq (fb : List Feedback) (a d : String) (c : List String) :
    lossPenalty fb a d c = -5 * ((similarLosses fb a d c).length : ℚ) := by
  simp only [lossPenalty]
  split_ifs with h
  · ring
  · have h0 : (similarLosses fb a d c).length = 0 := by omega
    rw [h0]
    simp

/-- The M5 entry time is the strictly next five-minute boundary. -/
lemma entryTimeM5_eq (now : ℕ) : entryTimeM5 now = 300000 * (now / 300000 + 1) := by
  simp only [entryTimeM5, getMinutes, startOfMinute, addMinutes]
  omega

/-! ## Claim C2: entry-time scheduling -/

/-- Claim C2 counterexample: at the claimed call time 10:07:30 with
timeframe M1, the emitted entry timestamp is 10:09:00 (minute floor plus two
minutes), not the 10:10:00 stated by the claim. -/
theorem C2_counterexample :
    (analyzeAsset mdB [] cfgM1 now1073 0 "GBPUSD").map Signal.entryTimestamp =
      some 36540000 ∧
    (36540000 : ℕ) ≠ 36600000 := by
  rw [analyzeAsset_sigB]
  exact ⟨rfl, by decide⟩

/-- Claim C2 (amended): every signal emitted under timeframe M1 has entry
timestamp equal to the call time rounded down to the minute plus two minutes
— at 10:07:30 that is 10:09:00, not 10:10:00 — with expiration label
"1 min"; every signal emitted under timeframe M5 has entry timestamp at the
strictly next five-minute boundary with seconds zeroed — at 10:07:30 that is
10:10:00 — with expiration label "5 min". -/
theorem C2_amended (md : String → Option (List Candle × String))
    (fb : List Feedback) (mkt : String) (now : ℕ) (rand : ℚ) (name : String)
    (s s5 : Signal)
    (hM1 : analyzeAsset md fb ⟨"M1", mkt⟩ now rand name = some s)
    (hM5 : analyzeAsset md fb ⟨"M5", mkt⟩ now rand name = some s5) :
    (s.entryTimestamp = startOfMinute now + 120000 ∧ s.expiration = "1 min") ∧
    (s5.entryTimestamp = 300000 * (now / 300000 + 1) ∧ s5.expiration = "5 min") ∧
    entryTimeM1 now1073 = 36540000 ∧ entryTimeM5 now1073 = 36600000 := by
  obtain ⟨c1, t1, p1, hmd1, hcc1, hs1⟩ := analyzeAsset_some_ex _ _ _ _ _ _ _ hM1
  obtain ⟨c5, t5, p5, hmd5, hcc5, hs5⟩ := analyzeAsset_some_ex _ _ _ _ _ _ _ hM5
  subst hs1
  subst hs5
  refine ⟨⟨rfl, rfl⟩, ⟨?_, rfl⟩, by decide, by decide⟩
  exact entryTimeM5_eq now

/-- Claim C2 witness: the amended theorem applied to the GBPUSD window at
10:07:30 for both timeframes. -/
theorem C2_witness :
    sigB.entryTimestamp = startOfMinute now1073 + 120000 ∧
    sigB.expiration = "1 min" ∧
    sigB5.entryTimestamp = 300000 * (now1073 / 300000 + 1) ∧
    sigB5.expiration = "5 min" := by
  have h := C2_amended mdB [] "GERAL" now1073 0 "GBPUSD" sigB sigB5
    analyzeAsset_sigB analyzeAsset_sigB5
  exact ⟨h.1.1, h.1.2, h.2.1.1, h.2.1.2⟩

/-! ## Claim C5: the winrate clamp -/

/-- Claim C5 (confirmed): every signal returned by analyzeAsset has a winrate
in the closed interval from 0 to 100, and that winrate equals the raw score —
base 75 plus five per confluence plus the jitter — plus the feedback
adjustment plus the loss penalty, clamped to the interval, whatever the
magnitudes of penalty and adjustment. -/
theorem C5_winrate_clamp (md : String → Option (List Candle × String))
    (fb : List Feedback) (cfg : ScannerConfig) (now : ℕ) (rand : ℚ)
    (name : String) (s : Signal)
    (ha : analyzeAsset md fb cfg now rand name = some s) :
    0 ≤ s.winrate ∧ s.winrate ≤ 100 ∧
    s.winrate = max 0 (min (75 + (s.confluences.length : ℚ) * 5 + rand * 5 +
      winrateAdjustment fb name + lossPenalty fb name s.direction s.confluences) 100) := by
  obtain ⟨c, t, p, hmd, hcc, hs⟩ := analyzeAsset_some_ex _ _ _ _ _ _ _ ha
  subst hs
  exact ⟨clamp_nonneg _, clamp_le_100 _, rfl⟩

/-- Claim C5 witness: the clamp theorem applied to the GBPUSD signal. -/
theorem C5_witness : 0 ≤ sigB.winrate ∧ sigB.winrate ≤ 100 := by
  have h := C5_winrate_clamp mdB [] cfgM1 now1073 0 "GBPUSD" sigB analyzeAsset_sigB
  exact ⟨h.1, h.2.1⟩

/-! ## Claim C6: the loss penalty and its monotonicity -/

/-- Claim C6 counterexample: against one versus two matching prior losses —
everything else fixed, the added loss lying outside the recent-twenty window
— the winrate is 100 both times because the clamp binds, refuting the claimed
strict decrease for positive matching counts. -/
theorem C6_counterexample :
    (similarLosses histOneLoss "EURUSD" "PUT" conf5).length = 1 ∧
    (similarLosses histTwoLoss "EURUSD" "PUT" conf5).length = 2 ∧
    (analyzeAsset md6 histOneLoss cfgM1 now1073 0 "EURUSD").map Signal.winrate =
      some 100 ∧
    (analyzeAsset md6 histTwoLoss cfgM1 now1073 0 "EURUSD").map Signal.winrate =
      some 100 := by
  with_unfolding_all decide

/-- Claim C6 (amended): the loss penalty equals minus five times the number
of matching loss records (same asset, same direction, result loss, recorded
confluence overlap at least 0.7); holding the adjustment and all other inputs
fixed, a history with at least as many matching losses yields a winrate at
most as large — the decrease need not be strict even for positive counts,
because the clamp at 0 or 100 can absorb the penalty. -/
theorem C6_amended (md : String → Option (List Candle × String))
    (fb1 fb2 : List Feedback) (cfg : ScannerConfig) (now : ℕ) (rand : ℚ)
    (name : String) (s1 s2 : Signal)
    (ha1 : analyzeAsset md fb1 cfg now rand name = some s1)
    (ha2 : analyzeAsset md fb2 cfg now rand name = some s2)
    (hadj : winrateAdjustment fb2 name = winrateAdjustment fb1 name)
    (hcnt : (similarLosses fb1 name s1.direction s1.confluences).length ≤
            (similarLosses fb2 name s2.direction s2.confluences).length) :
    lossPenalty fb1 name s1.direction s1.confluences =
      -5 * ((similarLosses fb1 name s1.direction s1.confluences).length : ℚ) ∧
    s2.winrate ≤ s1.winrate := by
  obtain ⟨c1, t1, p1, hmd1, hcc1, hs1⟩ := analyzeAsset_some_ex _ _ _ _ _ _ _ ha1
  obtain ⟨c2, t2, p2, hmd2, hcc2, hs2⟩ := analyzeAsset_some_ex _ _ _ _ _ _ _ ha2
  rw [hmd1] at hmd2
  injection hmd2 with hct
  obtain ⟨hc, ht⟩ := Prod.mk.injEq .. |>.mp hct
  subst hc
  subst ht
  rw [hcc1] at hcc2
  injection hcc2 with hp
  subst hp
  subst hs1
  subst hs2
  refine ⟨lossPenalty_eq _ _ _ _, ?_⟩
  have hcnt' : (similarLosses fb1 name p1.1 p1.2).length ≤
      (similarLosses fb2 name p1.1 p1.2).length := hcnt
  refine clamp_mono ?_
  have hadj' : winrateAdjustment fb2 name = winrateAdjustment fb1 name := hadj
  have hk : ((similarLosses fb1 name p1.1 p1.2).length : ℚ) ≥ 0 := by positivity
  simp only [lossPenalty_eq, hadj']
  have hq : ((similarLosses fb1 name p1.1 p1.2).length : ℚ) ≤
      ((similarLosses fb2 name p1.1 p1.2).length : ℚ) := by exact_mod_cast hcnt'
  linarith

/-- Claim C6 witness: the amended theorem applied to the one-loss and
two-loss histories over the five-confluence window. -/
theorem C6_witness : sig62.winrate ≤ sig61.winrate :=
  (C6_amended md6 histOneLoss histTwoLoss cfgM1 now1073 0 "EURUSD" sig61 sig62
    analyzeAsset_sig61 analyzeAsset_sig62
    (by with_unfolding_all decide) (by with_unfolding_all decide)).2

/-! ## Claim C10: signal invariants -/

/-- Claim C10 (confirmed): every signal returned by analyzeAsset carries at
least two confluence labels, and its strength is one of "Weak", "Medium" or
"Strong" — the "None" strength of the Signal type is never produced. -/
theorem C10_invariant (md : String → Option (List Candle × String))
    (fb : List Feedback) (cfg : ScannerConfig) (now : ℕ) (rand : ℚ)
    (name : String) (s : Signal)
    (ha : analyzeAsset md fb cfg now rand name = some s) :
    2 ≤ s.confluences.length ∧
    (s.strength = "Weak" ∨ s.strength = "Medium" ∨ s.strength = "Strong") ∧
    s.strength ≠ "None" := by
  obtain ⟨c, t, p, hmd, hcc, hs⟩ := analyzeAsset_some_ex _ _ _ _ _ _ _ ha
  subst hs
  have h2 := computeConfluences_min_two (getIndicators c)
    ((c.getD (c.length - 1) default).close)
  rw [hcc] at h2
  simp only [decide_eq_true_eq] at h2
  have hstr : (buildSignal name t cfg fb now rand (getIndicators c)
      ((c.getD (c.length - 1) default).close) p.1 p.2).strength =
      (if 4 ≤ p.2.length then "Strong"
       else if 3 ≤ p.2.length then "Medium" else "Weak") := rfl
  refine ⟨h2, ?_, ?_⟩
  · rw [hstr]
    split_ifs <;> simp
  · rw [hstr]
    split_ifs <;> decide

/-- Claim C10 witness: the invariant applied to the GBPUSD signal. -/
theorem C10_witness : 2 ≤ sigB.confluences.length ∧ sigB.strength ≠ "None" := by
  have h := C10_invariant mdB [] cfgM1 now1073 0 "GBPUSD" sigB analyzeAsset_sigB
  exact ⟨h.1, h.2.2⟩

/-! ## Claim C7: feedback submission validation -/

/-- Claim C7 counterexample: a submission whose result field is the
unrecognised string "draw" is not rejected; it is appended to the history and
answered with the new size, refuting the claim that the result must be
exactly "win" or "loss" for the submission to succeed. -/
theorem C7_counterexample :
    ("draw" : String) ≠ "win" ∧ ("draw" : String) ≠ "loss" ∧
    handleFeedback [] ⟨some "EURUSD", "CALL", some "draw", none⟩ 5 =
      .ok [⟨"EURUSD", "CALL", "draw", 5, none⟩] 1 := by
  decide

/-- Claim C7 (amended): a submission whose asset or result is absent or empty
(JavaScript-falsy) fails with the validation error and contributes nothing to
the history; any submission with truthy asset and result — the result value
itself is not inspected — is timestamped by the core, appended as exactly one
record, and answered with the current history size. -/
theorem C7_amended (history : List Feedback) (req : FeedbackReq) (now : ℕ) :
    ((isFalsy req.asset || isFalsy req.result) = true →
      handleFeedback history req now = .error "Invalid feedback") ∧
    ((isFalsy req.asset || isFalsy req.result) = false →
      handleFeedback history req now =
        .ok (history ++
            [⟨req.asset.getD "", req.direction, req.result.getD "", now, req.context⟩])
          (history.length + 1)) := by
  constructor <;> intro h <;> simp [handleFeedback, h]

/-- Claim C7 witness: the amended theorem applied to a missing asset and to a
well-formed win submission. -/
theorem C7_witness :
    handleFeedback [] ⟨none, "CALL", some "win", none⟩ 7 = .error "Invalid feedback" ∧
    handleFeedback [] ⟨some "EURUSD", "CALL", some "win", none⟩ 7 =
      .ok [⟨"EURUSD", "CALL", "win", 7, none⟩] 1 := by
  constructor
  · exact (C7_amended [] ⟨none, "CALL", some "win", none⟩ 7).1 (by decide)
  · have h := (C7_amended [] ⟨some "EURUSD", "CALL", some "win", none⟩ 7).2 (by decide)
    simpa using h

/-! ## Claim C8: fractal detection -/

/-- Claim C8 counterexample: a middle candle that engulfs its neighbours
satisfies the top inequality and the bottom inequality at once, and
detectFractal returns "top", not "bottom" — refuting both the claimed
impossibility of the conjunction and the claimed bottom-iff
characterisation. -/
theorem C8_counterexample :
    topCond candlesWide ∧ botCond candlesWide ∧
    detectFractal candlesWide = some "top" ∧
    detectFractal candlesWide ≠ some "bottom" := by
  decide

/-- Claim C8 (amended): on a window of at least five candles, detectFractal
classifies the candle three positions from the end; it returns "top" exactly
when the top inequality holds, "bottom" exactly when the bottom inequality
holds and the top inequality does not (the top test takes precedence), and
absent exactly when neither holds; the concrete windows of the claim behave
as stated. -/
theorem C8_amended :
    (∀ candles : List Candle, 5 ≤ candles.length →
      (detectFractal candles = some "top" ↔ topCond candles) ∧
      (detectFractal candles = some "bottom" ↔ (botCond candles ∧ ¬ topCond candles)) ∧
      (detectFractal candles = none ↔ (¬ topCond candles ∧ ¬ botCond candles))) ∧
    detectFractal candlesTop = some "top" ∧
    detectFractal candlesBot = some "bottom" ∧
    detectFractal candlesMono = none := by
  refine ⟨?_, by decide, by decide, by decide⟩
  intro candles h5
  simp only [detectFractal]
  rw [if_neg (show ¬ candles.length < 5 by omega)]
  split_ifs with h1 h2
  · exact ⟨iff_of_true rfl h1,
      iff_of_false (by simp) (fun h => h.2 h1),
      iff_of_false (by simp) (fun h => h.1 h1)⟩
  · exact ⟨iff_of_false (by simp) h1,
      iff_of_true rfl ⟨h2, h1⟩,
      iff_of_false (by simp) (fun h => h.2 h2)⟩
  · exact ⟨iff_of_false (by simp) h1,
      iff_of_false (by simp) (fun h => h2 h.1),
      iff_of_true rfl ⟨h1, h2⟩⟩

/-- Claim C8 witness: the amended theorem applied to the concrete
bottom-fractal window. -/
theorem C8_witness : detectFractal candlesBot = some "bottom" :=
  ((C8_amended.1 candlesBot (by decide)).2.1).mpr (by decide)

/-! ## Claim C9: trend detection -/

/-- Claim C9 counterexample: with two closes and the present sma16 value 0,
the last close 2 is strictly greater than sma16, yet detectTrend returns
"neutral" rather than "up", because the JavaScript guard `!sma16` also fires
on the number zero. -/
theorem C9_counterexample :
    detectTrend [(1 : ℚ), 2] (some 0) = "neutral" ∧
    (0 : ℚ) < [(1 : ℚ), 2].getD 1 0 ∧
    ("neutral" : String) ≠ "up" := by
  decide

/-- Claim C9 (amended): detectTrend returns "neutral" when sma16 is absent,
when there are fewer than two closes, and also when sma16 is present but
equal to zero (JavaScript falsiness of the guard); otherwise, for a present
nonzero sma16 and at least two closes, it returns "up" exactly when the last
close is strictly greater than sma16, "down" exactly when strictly less, and
"neutral" exactly when equal. -/
theorem C9_amended :
    (∀ closes : List ℚ, detectTrend closes none = "neutral") ∧
    (∀ (closes : List ℚ) (v : ℚ), closes.length < 2 →
      detectTrend closes (some v) = "neutral") ∧
    (∀ closes : List ℚ, detectTrend closes (some 0) = "neutral") ∧
    (∀ (closes : List ℚ) (v : ℚ), v ≠ 0 → 2 ≤ closes.length →
      (detectTrend closes (some v) = "up" ↔ v < closes.getD (closes.length - 1) 0) ∧
      (detectTrend closes (some v) = "down" ↔ closes.getD (closes.length - 1) 0 < v) ∧
      (detectTrend closes (some v) = "neutral" ↔ closes.getD (closes.length - 1) 0 = v)) := by
  refine ⟨?_, ?_, ?_, ?_⟩
  · intro closes; simp [detectTrend]
  · intro closes v hlen; simp [detectTrend, hlen]
  · intro closes; simp [detectTrend]
  · intro closes v hv hlen
    unfold detectTrend
    rw [if_neg (by simp [hv]; omega)]
    simp only [Option.getD_some]
    split_ifs with h1 h2 <;>
      refine ⟨?_, ?_, ?_⟩ <;>
      constructor <;>
      intro hx <;>
      first
        | exact h1
        | exact h2
        | linarith
        | simp_all

/-- Claim C9 witness: the amended theorem applied to two closes ending at 3
with sma16 equal to 2. -/
theorem C9_witness : detectTrend [(1 : ℚ), 3] (some 2) = "up" :=
  ((C9_amended.2.2.2 [(1 : ℚ), 3] 2 (by norm_num) (by norm_num)).1).mpr (by norm_num)

/-! ## Scan step lemmas -/

/-- A muted instrument is logged as discarded with the muting reason and
leaves the best candidate untouched. -/
lemma scanAssetStep_muted (md : String → Option (List Candle × String))
    (fb : List Feedback) (cfg : ScannerConfig) (now : ℕ) (rand : String → ℚ)
    (muted : List String) (li : Option (String × ℕ)) (st : ScanState)
    (name ty : String) (hmut : muted.contains name = true) :
    scanAssetStep md fb cfg now rand muted li st (name, ty) =
      ⟨st.logs ++ [⟨now, name, "discarded", some "Ativo silenciado pelo usuário"⟩],
       st.bestSignal⟩ := by
  unfold scanAssetStep
  rw [if_pos hmut]

/-- An instrument that passes every filter is logged as analyzed and enters
the best-candidate comparison. -/
lemma scanAssetStep_pass (md : String → Option (List Candle × String))
    (fb : List Feedback) (cfg : ScannerConfig) (now : ℕ) (rand : String → ℚ)
    (muted : List String) (li : Option (String × ℕ)) (st : ScanState)
    (name ty : String) (s : Signal)
    (hmut : muted.contains name = false)
    (hmkt : ¬(cfg.marketType ≠ "GERAL" ∧ ty ≠ cfg.marketType))
    (ha : analyzeAsset md fb cfg now (rand name) name = some s)
    (hwr : ¬ s.winrate < 90)
    (hli : (match li with
            | some info => s.asset == info.1 && s.entryTimestamp == info.2
            | none => false) = false) :
    scanAssetStep md fb cfg now rand muted li st (name, ty) =
      ⟨st.logs ++ [⟨now, name, "analyzed", none⟩], chooseBest st.bestSignal s⟩ := by
  unfold scanAssetStep
  simp only [ha]
  rw [if_neg (show ¬ muted.contains name = true by rw [hmut]; simp),
    if_neg hmkt, if_neg hwr, hli,
    if_neg (show ¬ (false = true) by simp)]

/-- A qualifying candidate equal to the last selected asset and entry
timestamp is discarded with the already-sent reason and leaves the best
candidate untouched. -/
lemma scanAssetStep_repeat (md : String → Option (List Candle × String))
    (fb : List Feedback) (cfg : ScannerConfig) (now : ℕ) (rand : String → ℚ)
    (muted : List String) (la : String) (lt : ℕ) (st : ScanState)
    (name ty : String) (s : Signal)
    (hmut : muted.contains name = false)
    (hmkt : ¬(cfg.marketType ≠ "GERAL" ∧ ty ≠ cfg.marketType))
    (ha : analyzeAsset md fb cfg now (rand name) name = some s)
    (hwr : ¬ s.winrate < 90)
    (hla : s.asset = la) (hlt : s.entryTimestamp = lt) :
    scanAssetStep md fb cfg now rand muted (some (la, lt)) st (name, ty) =
      ⟨st.logs ++ [⟨now, name, "discarded", some "Sinal já enviado para este horário"⟩],
       st.bestSignal⟩ := by
  subst hla
  subst hlt
  unfold scanAssetStep
  simp only [ha]
  rw [if_neg (show ¬ muted.contains name = true by rw [hmut]; simp),
    if_neg hmkt, if_neg hwr]
  simp

/-- When the loop finishes without a best candidate, the last-selected memory
is returned unchanged. -/
lemma runScanFinish_none (now : ℕ) (li : Option (String × ℕ)) (st : ScanState)
    (h : st.bestSignal = none) : runScanFinish now li st = (none, st.logs, li) := by
  simp [runScanFinish, h]

/-- Evaluation of analyzeAsset on the EURUSD fixture of the two-instrument
market data, with the jitter draw of one fifth. -/
lemma analyzeAsset_sigA :
    analyzeAsset mdAB [] cfgM1 now1073 (randAB "EURUSD") "EURUSD" = some sigA :=
  analyzeAsset_eval mdAB [] cfgM1 now1073 (randAB "EURUSD") "EURUSD" candlesA "REAL"
    "CALL" ["Fractal Fundo", "Preço > SMA16", "Tendência Alta"] (by decide)
    (by with_unfolding_all decide)

/-- Evaluation of analyzeAsset on the GBPUSD fixture of the two-instrument
market data. -/
lemma analyzeAsset_sigB_AB :
    analyzeAsset mdAB [] cfgM1 now1073 (randAB "GBPUSD") "GBPUSD" = some sigB :=
  analyzeAsset_eval mdAB [] cfgM1 now1073 (randAB "GBPUSD") "GBPUSD" candlesB "REAL"
    "CALL" ["Fractal Fundo", "RSI > 50", "Preço > SMA16", "Tendência Alta"] (by decide)
    (by with_unfolding_all decide)

/-- The EURUSD fixture signal scores winrate 91. -/
lemma sigA_winrate : sigA.winrate = 91 := by with_unfolding_all decide

/-- The GBPUSD fixture signal scores winrate 95. -/
lemma sigB_winrate : sigB.winrate = 95 := by with_unfolding_all decide

/-- One scan over the instruments A then B, nothing muted: both are analyzed,
B is selected on its strictly greater winrate, and the last-selected memory
becomes the GBPUSD entry pair. -/
lemma runScan_AB_none :
    runScan mdAB [] cfgM1 now1073 randAB assetsAB [] none =
      (some sigB,
       [⟨now1073, "EURUSD", "analyzed", none⟩, ⟨now1073, "GBPUSD", "analyzed", none⟩,
        ⟨now1073, "GBPUSD", "selected", none⟩],
       some ("GBPUSD", 36540000)) := by
  unfold runScan assetsAB
  rw [List.foldl_cons, List.foldl_cons, List.foldl_nil]
  rw [scanAssetStep_pass mdAB [] cfgM1 now1073 randAB [] none ⟨[], none⟩ "EURUSD" "REAL"
    sigA rfl (by simp [cfgM1]) analyzeAsset_sigA
    (by rw [sigA_winrate]; norm_num) rfl]
  rw [scanAssetStep_pass mdAB [] cfgM1 now1073 randAB [] none _ "GBPUSD" "REAL"
    sigB rfl (by simp [cfgM1]) analyzeAsset_sigB_AB
    (by rw [sigB_winrate]; norm_num) rfl]
  rw [show chooseBest (chooseBest none sigA) sigB = some sigB by
    show (if sigA.winrate < sigB.winrate then some sigB else some sigA) = some sigB
    rw [sigA_winrate, sigB_winrate, if_pos (show (91 : ℚ) < 95 by norm_num)]]
  rfl

/-- One scan over A then B with B muted: A is analyzed and selected, B is
logged as discarded with the muting reason. -/
lemma runScan_AB_muted :
    runScan mdAB [] cfgM1 now1073 randAB assetsAB ["GBPUSD"] none =
      (some sigA,
       [⟨now1073, "EURUSD", "analyzed", none⟩,
        ⟨now1073, "GBPUSD", "discarded", some "Ativo silenciado pelo usuário"⟩,
        ⟨now1073, "EURUSD", "selected", none⟩],
       some ("EURUSD", 36540000)) := by
  unfold runScan assetsAB
  rw [List.foldl_cons, List.foldl_cons, List.foldl_nil]
  rw [scanAssetStep_pass mdAB [] cfgM1 now1073 randAB ["GBPUSD"] none ⟨[], none⟩
    "EURUSD" "REAL" sigA (by decide) (by simp [cfgM1]) analyzeAsset_sigA
    (by rw [sigA_winrate]; norm_num) rfl]
  rw [scanAssetStep_muted mdAB [] cfgM1 now1073 randAB ["GBPUSD"] none _
    "GBPUSD" "REAL" (by decide)]
  rfl

/-- First scan cycle over the single instrument B with empty memory: B is
analyzed and selected, and the memory becomes its asset and entry pair. -/
lemma runScan_B_cycle1 :
    runScan mdB [] cfgM1 now1073 rand0 assetsB [] none =
      (some sigB,
       [⟨now1073, "GBPUSD", "analyzed", none⟩, ⟨now1073, "GBPUSD", "selected", none⟩],
       some ("GBPUSD", 36540000)) := by
  unfold runScan assetsB
  rw [List.foldl_cons, List.foldl_nil]
  rw [scanAssetStep_pass mdB [] cfgM1 now1073 rand0 [] none ⟨[], none⟩ "GBPUSD" "REAL"
    sigB rfl (by simp [cfgM1]) analyzeAsset_sigB
    (by rw [sigB_winrate]; norm_num) rfl]
  rfl

/-- Second scan cycle over the single instrument B with the pair of cycle one
in memory: the same candidate is discarded with the already-sent reason, no
signal is selected, and the memory is unchanged. -/
lemma runScan_B_cycle2 :
    runScan mdB [] cfgM1 now1073 rand0 assetsB [] (some ("GBPUSD", 36540000)) =
      (none,
       [⟨now1073, "GBPUSD", "discarded", some "Sinal já enviado para este horário"⟩],
       some ("GBPUSD", 36540000)) := by
  unfold runScan assetsB
  rw [List.foldl_cons, List.foldl_nil]
  rw [scanAssetStep_repeat mdB [] cfgM1 now1073 rand0 [] "GBPUSD" 36540000 ⟨[], none⟩
    "GBPUSD" "REAL" sigB rfl (by simp [cfgM1]) analyzeAsset_sigB
    (by rw [sigB_winrate]; norm_num) rfl rfl]
  rfl

/-! ## Claim C3: scan selection and tie-breaking -/

/-- Claim C3 (confirmed): a candidate replaces the current best only when its
winrate is strictly greater, so the first-seen candidate wins ties; with
instruments A (winrate 91) and B (winrate 95) both passing all filters, scan
selects B; with B muted, scan selects A and logs B as discarded with the
muting reason. -/
theorem C3_selection :
    (∀ b s : Signal, s.winrate ≤ b.winrate → chooseBest (some b) s = some b) ∧
    sigA.winrate = 91 ∧ sigB.winrate = 95 ∧
    ((runScan mdAB [] cfgM1 now1073 randAB assetsAB [] none).1).map Signal.asset =
      some "GBPUSD" ∧
    ((runScan mdAB [] cfgM1 now1073 randAB assetsAB ["GBPUSD"] none).1).map Signal.asset =
      some "EURUSD" ∧
    (⟨now1073, "GBPUSD", "discarded", some "Ativo silenciado pelo usuário"⟩ : ScanLog) ∈
      (runScan mdAB [] cfgM1 now1073 randAB assetsAB ["GBPUSD"] none).2.1 := by
  refine ⟨?_, sigA_winrate, sigB_winrate, ?_, ?_, ?_⟩
  · intro b s h
    simp [chooseBest, not_lt.2 h]
  · rw [runScan_AB_none]
    rfl
  · rw [runScan_AB_muted]
    rfl
  · rw [runScan_AB_muted]
    simp

/-- Claim C3 witness: the tie-breaking clause applied to the two fixture
signals with equal winrate comparison resolved concretely. -/
theorem C3_witness : chooseBest (some sigB) sigA = some sigB :=
  C3_selection.1 sigB sigA (by rw [sigA_winrate, sigB_winrate]; norm_num)

/-! ## Claim C4: repeat suppression across cycles -/

/-- Claim C4 (confirmed): the cross-cycle memory is reset only by a new
selection — a cycle that selects nothing returns it unchanged; a qualifying
candidate whose asset and entry timestamp equal the remembered pair never
changes the best candidate and is logged as discarded with the already-sent
reason; concretely, after B is selected in cycle one, the cycle-two scan
discards B with that reason even though no other instrument qualifies, and
the memory survives unchanged. -/
theorem C4_repeat_suppression :
    (∀ (md : String → Option (List Candle × String)) (fb : List Feedback)
      (cfg : ScannerConfig) (now : ℕ) (rand : String → ℚ)
      (assets : List (String × String)) (muted : List String)
      (lastInfo : Option (String × ℕ)),
      (runScan md fb cfg now rand assets muted lastInfo).1 = none →
      (runScan md fb cfg now rand assets muted lastInfo).2.2 = lastInfo) ∧
    (∀ (md : String → Option (List Candle × String)) (fb : List Feedback)
      (cfg : ScannerConfig) (now : ℕ) (rand : String → ℚ) (muted : List String)
      (la : String) (lt : ℕ) (st : ScanState) (name ty : String) (s : Signal),
      muted.contains name = false →
      ¬(cfg.marketType ≠ "GERAL" ∧ ty ≠ cfg.marketType) →
      analyzeAsset md fb cfg now (rand name) name = some s →
      ¬ s.winrate < 90 →
      s.asset = la → s.entryTimestamp = lt →
      scanAssetStep md fb cfg now rand muted (some (la, lt)) st (name, ty) =
        ⟨st.logs ++ [⟨now, name, "discarded", some "Sinal já enviado para este horário"⟩],
         st.bestSignal⟩) ∧
    (runScan mdB [] cfgM1 now1073 rand0 assetsB [] none).2.2 =
      some ("GBPUSD", 36540000) ∧
    (runScan mdB [] cfgM1 now1073 rand0 assetsB [] (some ("GBPUSD", 36540000))).1 =
      none ∧
    (runScan mdB [] cfgM1 now1073 rand0 assetsB [] (some ("GBPUSD", 36540000))).2.2 =
      some ("GBPUSD", 36540000) ∧
    (⟨now1073, "GBPUSD", "discarded", some "Sinal já enviado para este horário"⟩ : ScanLog) ∈
      (runScan mdB [] cfgM1 now1073 rand0 assetsB [] (some ("GBPUSD", 36540000))).2.1 := by
  refine ⟨?_, ?_, ?_, ?_, ?_, ?_⟩
  · intro md fb cfg now rand assets muted lastInfo h
    unfold runScan at h ⊢
    cases hb : (assets.foldl (scanAssetStep md fb cfg now rand muted lastInfo)
        ⟨[], none⟩).bestSignal with
    | none => simp [runScanFinish, hb]
    | some b => simp [runScanFinish, hb] at h
  · intro md fb cfg now rand muted la lt st name ty s hmut hmkt ha hwr hla hlt
    exact scanAssetStep_repeat md fb cfg now rand muted la lt st name ty s
      hmut hmkt ha hwr hla hlt
  · rw [runScan_B_cycle1]
  · rw [runScan_B_cycle2]
  · rw [runScan_B_cycle2]
  · rw [runScan_B_cycle2]
    simp

/-- Claim C4 witness: the memory-preservation clause and the suppression
clause applied to the concrete second cycle. -/
theorem C4_witness :
    (runScan mdB [] cfgM1 now1073 rand0 assetsB [] (some ("GBPUSD", 36540000))).2.2 =
      some ("GBPUSD", 36540000) ∧
    scanAssetStep mdB [] cfgM1 now1073 rand0 [] (some ("GBPUSD", 36540000))
      ⟨[], none⟩ ("GBPUSD", "REAL") =
      ⟨[⟨now1073, "GBPUSD", "discarded", some "Sinal já enviado para este horário"⟩],
       none⟩ := by
  constructor
  · exact C4_repeat_suppression.1 mdB [] cfgM1 now1073 rand0 assetsB []
      (some ("GBPUSD", 36540000)) (by rw [runScan_B_cycle2])
  · exact C4_repeat_suppression.2.1 mdB [] cfgM1 now1073 rand0 [] "GBPUSD" 36540000
      ⟨[], none⟩ "GBPUSD" "REAL" sigB rfl (by simp [cfgM1]) analyzeAsset_sigB
      (by rw [sigB_winrate]; norm_num) rfl rfl

end QuantFlow
